import Mathlib

/-!
Verification of the voice-cloning front end.

This file shallowly embeds the pure decision logic of the repository:

* `scripts/prepare_audio.py` — `prepare_audio` and `combine_samples`
  (audio content modelled at millisecond granularity as `List Int`;
  the pydub library primitives whose content behaviour is outside the
  repository — channel mixdown, resampling, gain normalisation,
  `detect_nonsilent` — are parameters of the model, while their
  documented metadata behaviour is embedded concretely);
* `src/voice_cloner.py` — `validate_path` and `VoiceCloner.clone_voice`
  (filesystem paths modelled as component lists, `pathlib` resolution
  modelled lexically; side effects of `clone_voice` recorded as an
  explicit effect trace);
* `cli.py` — `find_voice_file`, the single-generation flow and the
  interactive-mode state machine;
* `quick_clone.py` — the `main` control flow;
* `web_ui.py` — `generate_speech` (its formatted status strings are
  abstracted into an inductive status type).

The file is organised as definitions first, then theorems.
-/

/-! ## Python string helpers -/

/-- Whitespace characters stripped by Python `str.strip()` /
split on by `str.split()` (ASCII fragment). -/
def pyIsSpace (c : Char) : Bool :=
  c = ' ' || c = '\t' || c = '\n' || c = '\r' || c = '\x0b' || c = '\x0c'

/-- `str.strip()` on a character list: drop whitespace from both ends. -/
def pyStripChars (l : List Char) : List Char :=
  ((l.dropWhile pyIsSpace).reverse.dropWhile pyIsSpace).reverse

/-- Python `str.strip()` (no arguments). -/
def pyStrip (s : String) : String := String.mk (pyStripChars s.data)

/-- Python `str.lower()` (ASCII fragment). -/
def pyLower (s : String) : String := String.mk (s.data.map Char.toLower)

/-- Splitter for Python `str.split()`: walk the characters, collecting
the current token (reversed) in `acc` and emitting it at each
whitespace run. -/
def pySplitAux : List Char → List Char → List String
  | [], acc => if acc.isEmpty then [] else [String.mk acc.reverse]
  | c :: cs, acc =>
    if pyIsSpace c then
      if acc.isEmpty then pySplitAux cs []
      else String.mk acc.reverse :: pySplitAux cs []
    else pySplitAux cs (c :: acc)

/-- Python `str.split()` with no arguments: split on whitespace runs,
discarding empty pieces. -/
def pySplit (s : String) : List String := pySplitAux s.data []

/-! ## Paths and the filesystem

A `pathlib.Path` is modelled as an absolute-flag plus its components.
`Path.resolve()` is modelled lexically (the repository is not expected
to traverse symlinks): start from the working directory for relative
paths, then fold the components, popping on `..`. -/

/-- A `pathlib.Path`: whether it is absolute, and its name components. -/
structure PyPath where
  absolute : Bool
  parts : List String
deriving DecidableEq, Repr

/-- Lexical `Path.resolve()` relative to the (already resolved, absolute)
working directory `cwd`: the result is the component list of an absolute
path. -/
def resolveComponents (cwd : List String) (p : PyPath) : List String :=
  p.parts.foldl
    (fun acc c =>
      if c = "." || c = "" then acc
      else if c = ".." then acc.dropLast
      else acc ++ [c])
    (if p.absolute then [] else cwd)

/-- `PurePath.relative_to`: succeeds exactly when `other`'s components
lead `self`'s, returning the remaining components (`.` when equal). -/
def relative_to (self other : List String) : Except String (List String) :=
  if other.isPrefixOf self then Except.ok (self.drop other.length)
  else Except.error "is not in the subpath"

/-- The filesystem visible to the scripts: the resolved absolute
component paths of the existing regular files and directories. -/
structure FS where
  files : List (List String)
  dirs : List (List String)
deriving Repr

/-- `Path.exists()` for an already-resolved absolute component path. -/
def FS.pathExistsAbs (fs : FS) (p : List String) : Bool :=
  fs.files.contains p || fs.dirs.contains p

/-- `Path.exists()` (file or directory) for a `PyPath`, resolved
against `cwd`. -/
def FS.pathExists (fs : FS) (cwd : List String) (p : PyPath) : Bool :=
  fs.pathExistsAbs (resolveComponents cwd p)

/-- Existence as a regular file. -/
def FS.fileExists (fs : FS) (cwd : List String) (p : PyPath) : Bool :=
  fs.files.contains (resolveComponents cwd p)

/-- `Path.is_dir()` combined with existence. -/
def FS.dirExists (fs : FS) (cwd : List String) (p : PyPath) : Bool :=
  fs.dirs.contains (resolveComponents cwd p)

/-- The `/` operator of `pathlib`: an absolute right operand replaces
the left one. -/
def pyJoin (base child : PyPath) : PyPath :=
  if child.absolute then child
  else { absolute := base.absolute, parts := base.parts ++ child.parts }

/-! ## `src/voice_cloner.py` — `validate_path` -/

namespace VoiceCloner

/-- `validate_path` from `src/voice_cloner.py` lines 12–35: resolve both
paths, try `resolved.relative_to(allowed)`, return the resolved path on
success and raise `ValueError` on failure. -/
def validate_path (cwd : List String) (path allowed_parent : PyPath) :
    Except String (List String) :=
  let resolved := resolveComponents cwd path
  let allowed := resolveComponents cwd allowed_parent
  match relative_to resolved allowed with
  | Except.ok _ => Except.ok resolved
  | Except.error _ => Except.error "Invalid path: must be within allowed parent"

end VoiceCloner

/-! ## `scripts/prepare_audio.py` — audio model

A pydub `AudioSegment` is modelled as its channel count, frame rate,
and content at millisecond granularity (`data : List Int`, one abstract
loudness value per millisecond, so `len(audio)` is `data.length`).
pydub primitives implemented outside this repository are parameters
(`PydubLib`); what the model embeds concretely is their documented
metadata behaviour: `set_channels` sets only the channel count,
`set_frame_rate` sets only the frame rate, `normalize` is a per-content
gain change, and millisecond slicing follows Python slice semantics. -/

namespace PrepareAudio

/-- A pydub `AudioSegment`. -/
structure AudioSegment where
  channels : Nat
  frameRate : Nat
  data : List Int
deriving DecidableEq, Repr

/-- The pydub primitives used by `prepare_audio` whose content
behaviour is library code, not repository code. `detect_nonsilent`
takes `min_silence_len` (ms) and `silence_thresh` (dBFS) and returns
`[start, end]` millisecond ranges. -/
structure PydubLib where
  toMonoData : List Int → List Int
  resampleData : (oldRate : Nat) → List Int → List Int
  normalizeData : List Int → List Int
  detect_nonsilent : (minSilenceLen : Nat) → (silenceThresh : Int) →
    AudioSegment → List (Nat × Nat)

/-- Millisecond slice `audio[start:end]` for `0 ≤ start, end` (pydub
clamps out-of-range indices like Python slices do). -/
def sliceMs (a : AudioSegment) (start stop : Nat) : AudioSegment :=
  { a with data := (a.data.drop start).take (stop - start) }

/-- `prepare_audio` from `scripts/prepare_audio.py` lines 15–79, after
the load: mono conversion (only when `channels > 1`), resampling to
22050 Hz (only when the rate differs), `normalize()`, and silence
trimming via `detect_nonsilent(min_silence_len=500, silence_thresh=-40)`
(slice from the first range's start to the last range's end when any
range is detected, otherwise only a warning). `none` models a load
failure (the function prints an error and returns `None`); the `some`
payload is the segment passed to `audio.export`. -/
def prepare_audio (lib : PydubLib) (loaded : Option AudioSegment) :
    Option AudioSegment :=
  match loaded with
  | none => none
  | some audio0 =>
    let audio1 :=
      if audio0.channels > 1 then
        { audio0 with channels := 1, data := lib.toMonoData audio0.data }
      else audio0
    let audio2 :=
      if audio1.frameRate ≠ 22050 then
        { audio1 with frameRate := 22050,
                      data := lib.resampleData audio1.frameRate audio1.data }
      else audio1
    let audio3 := { audio2 with data := lib.normalizeData audio2.data }
    let audio4 :=
      match lib.detect_nonsilent 500 (-40) audio3 with
      | [] => audio3
      | r :: rs => sliceMs audio3 r.1 (((r :: rs).getLastD (0, 0)).2)
    some audio4

/-- The mono-conversion step (lines 37–40) in isolation. -/
def monoStage (lib : PydubLib) (a : AudioSegment) : AudioSegment :=
  if a.channels > 1 then { a with channels := 1, data := lib.toMonoData a.data }
  else a

/-- The resampling step (lines 42–45) in isolation. -/
def rateStage (lib : PydubLib) (a : AudioSegment) : AudioSegment :=
  if a.frameRate ≠ 22050 then
    { a with frameRate := 22050, data := lib.resampleData a.frameRate a.data }
  else a

/-- The loudness-normalisation step (lines 47–49) in isolation. -/
def normalizeStage (lib : PydubLib) (a : AudioSegment) : AudioSegment :=
  { a with data := lib.normalizeData a.data }

/-- The silence-trimming step (lines 51–63) in isolation. -/
def trimStage (lib : PydubLib) (a : AudioSegment) : AudioSegment :=
  match lib.detect_nonsilent 500 (-40) a with
  | [] => a
  | r :: rs => sliceMs a r.1 (((r :: rs).getLastD (0, 0)).2)

/-! ### `combine_samples` -/

/-- The glob pattern `sample_*.wav` on a basename (`*` matches any
characters of the name; the literal parts cannot overlap, so no length
side condition is needed). -/
def matchesSamplePattern (name : String) : Bool :=
  "sample_".data.isPrefixOf name.data && ".wav".data.isSuffixOf name.data

/-- Python string `<=`: lexicographic comparison of code points. -/
def charListLe : List Char → List Char → Bool
  | [], _ => true
  | _ :: _, [] => false
  | a :: as, b :: bs =>
    if a.toNat < b.toNat then true
    else if b.toNat < a.toNat then false
    else charListLe as bs

/-- One step of a stable insertion sort on the filename. -/
def insertByName (x : String × Option AudioSegment) :
    List (String × Option AudioSegment) → List (String × Option AudioSegment)
  | [] => [x]
  | y :: rest =>
    if charListLe x.1.data y.1.data then x :: y :: rest
    else y :: insertByName x rest

/-- Python `sorted` on the filenames (all globbed paths share the
directory part, so sorting full paths and sorting basenames agree). -/
def sortByName (l : List (String × Option AudioSegment)) :
    List (String × Option AudioSegment) :=
  l.foldr insertByName []

/-- `AudioSegment.silent(duration=500)`: the 500 ms pause inserted
after each sample. -/
def sampleGap : List Int := List.replicate 500 0

/-- The body of the loop in `combine_samples` (lines 108–116): a sample
that loads is appended followed by a 500 ms pause; a sample that fails
to load is skipped (warning only). -/
def combineStep (acc : List Int) (e : String × Option AudioSegment) : List Int :=
  match e.2 with
  | some a => acc ++ a.data ++ sampleGap
  | none => acc

/-- `combine_samples` from `scripts/prepare_audio.py` lines 82–134.
The directory is a listing of basenames with each file's load outcome
(`none` = `AudioSegment.from_wav` raises). Result `none` models the
early return when no `sample_*.wav` matches (nothing exported); the
`some` payload is the millisecond content exported to `combined.wav`
after `combined = combined[:-500]`. -/
def combine_samples (dir : List (String × Option AudioSegment)) :
    Option (List Int) :=
  let samples := sortByName (dir.filter (fun e => matchesSamplePattern e.1))
  if samples.isEmpty then none
  else
    let combined := samples.foldl combineStep []
    some (combined.take (combined.length - 500))

/-- The sorted matching samples of a directory listing. -/
def sortedSamples (dir : List (String × Option AudioSegment)) :
    List (String × Option AudioSegment) :=
  sortByName (dir.filter (fun e => matchesSamplePattern e.1))

/-- The contents of the samples that loaded successfully, in order. -/
def loadedData (l : List (String × Option AudioSegment)) : List (List Int) :=
  l.filterMap (fun e => e.2.map AudioSegment.data)

/-- Concatenation with a separator between consecutive pieces and no
trailing separator. -/
def joinWith (sep : List Int) : List (List Int) → List Int
  | [] => []
  | [d] => d
  | d :: e :: rest => d ++ sep ++ joinWith sep (e :: rest)

end PrepareAudio

/-! ## `src/voice_cloner.py` — `VoiceCloner.clone_voice` -/

namespace VoiceCloner

/-- Side effects of `clone_voice`, in order of occurrence. -/
inductive CloneEffect
  | mkdirOutputParent
  | ttsToFile
deriving DecidableEq, Repr

/-- Exceptions raised by `clone_voice`. -/
inductive CloneErr
  | fileNotFoundError
  | valueError
  | ttsException
deriving DecidableEq, Repr

/-- `VoiceCloner.clone_voice`, `src/voice_cloner.py` lines 75–121:
check the reference audio exists (`FileNotFoundError`), check the text
is not empty nor whitespace-only (`ValueError`), create the output
directory, call `tts_to_file`, and return `output_path`; a TTS failure
is printed and re-raised. `refExists` abstracts
`os.path.exists(reference_audio)` and `ttsOk` whether `tts_to_file`
raises; the effect trace records the side effects in order. -/
def clone_voice (refExists : Bool) (text : String) (output_path : String)
    (ttsOk : Bool) : List CloneEffect × Except CloneErr String :=
  if !refExists then ([], Except.error CloneErr.fileNotFoundError)
  else if text.isEmpty || (pyStrip text).isEmpty then
    ([], Except.error CloneErr.valueError)
  else if ttsOk then
    ([CloneEffect.mkdirOutputParent, CloneEffect.ttsToFile],
      Except.ok output_path)
  else
    ([CloneEffect.mkdirOutputParent, CloneEffect.ttsToFile],
      Except.error CloneErr.ttsException)

/-- `get_supported_languages`, `src/voice_cloner.py` lines 146–154. -/
def get_supported_languages : List String :=
  ["en", "es", "fr", "de", "it", "pt", "pl", "tr",
   "ru", "nl", "cs", "ar", "zh-cn", "ja", "hu", "ko"]

end VoiceCloner

/-! ## `cli.py` -/

namespace Cli

/-- `Path(voice_name).suffix == ".wav"`: the final component ends in
`.wav` and has a nonempty stem (`pathlib` gives a bare `.wav` no
suffix). -/
def pySuffixIsWav (p : PyPath) : Bool :=
  match p.parts.getLast? with
  | some name => ".wav".data.isSuffixOf name.data && name.length > 4
  | none => false

/-- `voice_dir.glob("*.wav")`: basenames of the regular files directly
inside the resolved directory that end in `.wav` and are not hidden
(`glob` skips dotfiles), in filesystem listing order (`glob` order is
unspecified). -/
def globWavNames (fs : FS) (dirAbs : List String) : List String :=
  fs.files.filterMap (fun f =>
    if f.length = dirAbs.length + 1 && dirAbs.isPrefixOf f then
      match f.getLast? with
      | some n =>
        if ".wav".data.isSuffixOf n.data && !(['.'].isPrefixOf n.data) then
          some n
        else none
      | none => none
    else none)

/-- `find_voice_file` from `cli.py` lines 18–52: (1) if `voice_name` is
an existing path with a `.wav` suffix, accept it only when
`validate_path(voice_name, "voices")` succeeds, returning the resolved
path; (2) otherwise return `voices/<voice_name>/combined.wav` when it
exists; (3) otherwise the first `*.wav` file in the voice directory;
(4) otherwise `None`. -/
def find_voice_file (fs : FS) (cwd : List String) (voice_name : PyPath) :
    Option PyPath :=
  let direct :=
    if fs.pathExists cwd voice_name && pySuffixIsWav voice_name then
      match VoiceCloner.validate_path cwd voice_name ⟨false, ["voices"]⟩ with
      | Except.ok v => some (⟨true, v⟩ : PyPath)
      | Except.error _ => none
    else none
  match direct with
  | some v => some v
  | none =>
    let combined_path :=
      pyJoin (pyJoin ⟨false, ["voices"]⟩ voice_name) ⟨false, ["combined.wav"]⟩
    if fs.pathExists cwd combined_path then some combined_path
    else
      let voice_dir := pyJoin ⟨false, ["voices"]⟩ voice_name
      if fs.pathExists cwd voice_dir && fs.dirExists cwd voice_dir then
        match globWavNames fs (resolveComponents cwd voice_dir) with
        | n :: _ => some (pyJoin voice_dir ⟨false, [n]⟩)
        | [] => none
      else none

/-- Exits of the single-generation mode of `cli.py` `main`. -/
inductive ExitKind
  | noText
  | textTooLong
  | badOutputPath
  | genFailure
deriving DecidableEq, Repr

/-- `MAX_TEXT_LENGTH` from `cli.py` line 306. -/
def MAX_TEXT_LENGTH : Nat := 10000

/-- The single-generation flow of `cli.py` `main`, lines 298–347 (after
the voice file was found and the cloner initialised): require `--text`,
reject text over `MAX_TEXT_LENGTH`, validate an explicit output path
against `outputs/` (otherwise auto-generate a timestamped one, the
timestamp abstracted), then generate; the payload is the output path
written. `ttsOk` abstracts whether `clone_voice` raises. -/
def single_generation (cwd : List String) (text : Option String)
    (outputArg : Option PyPath) (ttsOk : Bool) : Except ExitKind (List String) :=
  match text with
  | none => Except.error ExitKind.noText
  | some t =>
    if t.length > MAX_TEXT_LENGTH then Except.error ExitKind.textTooLong
    else
      match outputArg with
      | some o =>
        match VoiceCloner.validate_path cwd o ⟨false, ["outputs"]⟩ with
        | Except.error _ => Except.error ExitKind.badOutputPath
        | Except.ok op =>
          if ttsOk then Except.ok op else Except.error ExitKind.genFailure
      | none =>
        if ttsOk then Except.ok (cwd ++ ["outputs", "output_timestamped.wav"])
        else Except.error ExitKind.genFailure

/-- Interactive session state: generation counter and current language
(`cli.py` lines 119–120). -/
structure IState where
  counter : Nat
  currentLanguage : String
deriving DecidableEq, Repr

/-- Initial interactive state: `counter = 1`, `current_language = "en"`. -/
def interactive_init : IState := { counter := 1, currentLanguage := "en" }

/-- `new_lang = user_input.split()[1].lower()` (`cli.py` line 147), on
the stripped input `u` (the loop strips before dispatch, so the second
token exists whenever the `lang ` test fired; out of range is modelled
by the empty string, which is never a supported code). -/
def parsedLang (u : String) : String :=
  pyLower ((pySplit u).getD 1 "")

/-- One iteration of the interactive loop (`cli.py` lines 122–194) on
the raw input line: strip it; skip empty input; `quit`/`exit`/`q` break
the loop; `help` prints and continues; `lang <code>` switches the
language only when the lowercased second token is supported, printing
an error otherwise; any other input is synthesised, incrementing the
counter on success (`genOk` abstracts whether `clone_voice` raises; a
failure is caught and printed). Returns the new state and whether the
loop continues. -/
def interactive_step (genOk : IState → String → Bool) (st : IState)
    (raw : String) : IState × Bool :=
  if (pyStrip raw).isEmpty then (st, true)
  else if ["quit", "exit", "q"].contains (pyLower (pyStrip raw)) then (st, false)
  else if pyLower (pyStrip raw) = "help" then (st, true)
  else if "lang ".data.isPrefixOf (pyLower (pyStrip raw)).data then
    if VoiceCloner.get_supported_languages.contains (parsedLang (pyStrip raw)) then
      ({ st with currentLanguage := parsedLang (pyStrip raw) }, true)
    else (st, true)
  else if genOk st (pyStrip raw) then ({ st with counter := st.counter + 1 }, true)
  else (st, true)

/-- The interactive loop over a list of input lines, stopping early on
`quit`/`exit`/`q`. -/
def interactive_run (genOk : IState → String → Bool) :
    IState → List String → IState
  | st, [] => st
  | st, raw :: rest =>
    match interactive_step genOk st raw with
    | (st2, true) => interactive_run genOk st2 rest
    | (st2, false) => st2

end Cli

/-! ## `quick_clone.py` -/

namespace QuickClone

/-- `MAX_TEXT_LENGTH` from `quick_clone.py` line 64. -/
def MAX_TEXT_LENGTH : Nat := 10000

/-- `DEFAULT_VOICE` from `quick_clone.py` lines 19–21:
`<script dir>/voices/my_voice/combined.wav`. -/
def DEFAULT_VOICE (scriptDir : List String) : List String :=
  scriptDir ++ ["voices", "my_voice", "combined.wav"]

/-- The `sys.exit(1)` sites of `quick_clone.py` `main`. -/
inductive QuickExit
  | usage
  | emptyText
  | tooLong
  | voiceMissing
  | initFailure
  | genFailure
deriving DecidableEq, Repr

/-- `text = " ".join(sys.argv[1:])` from `quick_clone.py` line 55. -/
def quickText (argvTail : List String) : String :=
  " ".intercalate argvTail

/-- `main` from `quick_clone.py` lines 46–123: no arguments prints
usage and exits; the text is the space-join of the arguments; blank
text, over-long text, a missing `DEFAULT_VOICE`, a cloner
initialisation failure and a generation failure each exit with an
error; otherwise `clone_voice` is called with `DEFAULT_VOICE` as the
reference. The payload is (reference audio passed to `clone_voice`,
text). -/
def quick_clone_main (fs : FS) (scriptDir : List String)
    (argvTail : List String) (initOk ttsOk : Bool) :
    Except QuickExit (List String × String) :=
  if argvTail.isEmpty then Except.error QuickExit.usage
  else if (pyStrip (quickText argvTail)).isEmpty then
    Except.error QuickExit.emptyText
  else if (quickText argvTail).length > MAX_TEXT_LENGTH then
    Except.error QuickExit.tooLong
  else if !(fs.pathExistsAbs (DEFAULT_VOICE scriptDir)) then
    Except.error QuickExit.voiceMissing
  else if !initOk then Except.error QuickExit.initFailure
  else if !ttsOk then Except.error QuickExit.genFailure
  else Except.ok (DEFAULT_VOICE scriptDir, quickText argvTail)

end QuickClone

/-! ## `web_ui.py` -/

namespace WebUi

/-- The status messages of `generate_speech` (its formatted strings
abstracted into constructors). -/
inductive Status
  | errEmptyText
  | errTooLong
  | errNoVoice
  | errBadPath
  | errVoiceNotFound
  | errGenerate
  | generated
deriving DecidableEq, Repr

/-- `MAX_TEXT_LENGTH` from `web_ui.py` line 78. -/
def MAX_TEXT_LENGTH : Nat := 10000

/-- `generate_speech` from `web_ui.py` lines 65–118: blank text,
over-long text, no selected voice, a voice path outside `voices/`, a
missing voice file and a generation failure each return `(None, error
status)`; success returns the generated audio path (timestamp
abstracted) and a success status. -/
def generate_speech (fs : FS) (cwd : List String) (text : String)
    (voice_file : Option PyPath) (ttsOk : Bool) :
    Option (List String) × Status :=
  if text.isEmpty || (pyStrip text).isEmpty then (none, Status.errEmptyText)
  else if text.length > MAX_TEXT_LENGTH then (none, Status.errTooLong)
  else
    match voice_file with
    | none => (none, Status.errNoVoice)
    | some vf =>
      match VoiceCloner.validate_path cwd vf ⟨false, ["voices"]⟩ with
      | Except.error _ => (none, Status.errBadPath)
      | Except.ok vp =>
        if !(fs.pathExistsAbs vp) then (none, Status.errVoiceNotFound)
        else if ttsOk then
          (some (cwd ++ ["outputs", "web_ui_timestamped.wav"]), Status.generated)
        else (none, Status.errGenerate)

end WebUi

/-! # Theorems -/

/-! ## Helper lemmas -/

namespace PrepareAudio

/-- `prepare_audio` is the in-order composition of the four stages. -/
theorem prepare_audio_eq_stages (lib : PydubLib) (a : AudioSegment) :
    prepare_audio lib (some a) =
      some (trimStage lib (normalizeStage lib (rateStage lib (monoStage lib a)))) := by
  simp only [prepare_audio, monoStage, rateStage, normalizeStage, trimStage]

theorem sampleGap_length : sampleGap.length = 500 := by
  rw [sampleGap, List.length_replicate]

/-- The combining fold appends, to its accumulator, each successfully
loaded sample followed by the 500 ms gap. -/
theorem combine_fold_eq (l : List (String × Option AudioSegment))
    (acc : List Int) :
    l.foldl combineStep acc =
      acc ++ ((loadedData l).map (fun d => d ++ sampleGap)).flatten := by
  induction l generalizing acc with
  | nil => simp [loadedData]
  | cons e rest ih =>
    rw [List.foldl_cons, ih]
    cases h : e.2 with
    | none =>
      simp [combineStep, loadedData, List.filterMap_cons, h]
    | some a =>
      simp [combineStep, loadedData, List.filterMap_cons, h,
        List.append_assoc]

/-- Gapped concatenation with a trailing gap, as produced by the loop. -/
theorem join_map_gap_eq (ls : List (List Int)) :
    (ls.map (fun d => d ++ sampleGap)).flatten =
      joinWith sampleGap ls ++ (if ls.isEmpty then [] else sampleGap) := by
  induction ls with
  | nil => simp [joinWith]
  | cons a rest ih =>
    cases rest with
    | nil => simp [joinWith]
    | cons b rest2 =>
      rw [List.map_cons, List.flatten_cons, ih]
      simp [joinWith, List.append_assoc]

/-- Removing the final 500 ms from the loop's result removes exactly the
trailing gap. -/
theorem combine_take_eq (ls : List (List Int)) :
    (((ls.map (fun d => d ++ sampleGap)).flatten).take
        (((ls.map (fun d => d ++ sampleGap)).flatten).length - 500)) =
      joinWith sampleGap ls := by
  cases ls with
  | nil => simp [joinWith]
  | cons a rest =>
    rw [join_map_gap_eq]
    simp only [List.isEmpty_cons, Bool.false_eq_true, if_neg, ite_false]
    have h : (joinWith sampleGap (a :: rest) ++ sampleGap).length - 500 =
        (joinWith sampleGap (a :: rest)).length := by
      simp [List.length_append, sampleGap_length]
    rw [h, List.take_left]

theorem length_insertByName (x : String × Option AudioSegment)
    (l : List (String × Option AudioSegment)) :
    (insertByName x l).length = l.length + 1 := by
  induction l with
  | nil => rfl
  | cons y rest ih =>
    simp only [insertByName]
    split
    · simp
    · simp [ih]

theorem length_sortByName (l : List (String × Option AudioSegment)) :
    (sortByName l).length = l.length := by
  induction l with
  | nil => rfl
  | cons x rest ih =>
    simp [sortByName, List.foldr_cons, length_insertByName] at *
    simpa [length_insertByName] using ih

/-- Characterisation of `combine_samples` when at least one file
matches `sample_*.wav`: the export is the successfully loaded samples,
in sorted filename order, joined with a single 500 ms gap between
consecutive ones and no trailing gap. -/
theorem combine_samples_eq (dir : List (String × Option AudioSegment))
    (h : dir.filter (fun e => matchesSamplePattern e.1) ≠ []) :
    combine_samples dir =
      some (joinWith sampleGap (loadedData (sortedSamples dir))) := by
  unfold combine_samples
  have hlen : (sortByName (dir.filter (fun e => matchesSamplePattern e.1))).length =
      (dir.filter (fun e => matchesSamplePattern e.1)).length :=
    length_sortByName _
  have hne : (sortByName (dir.filter (fun e => matchesSamplePattern e.1))).isEmpty = false := by
    cases hs : sortByName (dir.filter (fun e => matchesSamplePattern e.1)) with
    | nil =>
      exfalso
      apply h
      have := hlen
      rw [hs] at this
      exact List.length_eq_zero.mp this.symm
    | cons a rest => simp
  simp only [hne, Bool.false_eq_true, if_neg, ite_false]
  rw [combine_fold_eq, List.nil_append, combine_take_eq]
  rfl

/-- The length of the gapped join: the sum of the piece lengths plus
500 ms for each gap between consecutive pieces. -/
theorem length_joinWith (ls : List (List Int)) :
    (joinWith sampleGap ls).length =
      (ls.map List.length).sum + 500 * (ls.length - 1) := by
  induction ls with
  | nil => simp [joinWith]
  | cons a rest ih =>
    cases rest with
    | nil => simp [joinWith]
    | cons b rest2 =>
      simp only [joinWith, List.length_append, sampleGap_length, ih,
        List.map_cons, List.sum_cons, List.length_cons]
      omega

end PrepareAudio

/-! ## Claims -/

/-- C1: for every input that loads (with the pydub invariant of at least
one channel), the exported audio is mono and has frame rate exactly
22050 Hz, whatever the input's channel count and frame rate. -/
theorem claim_C1 (lib : PrepareAudio.PydubLib) (a : PrepareAudio.AudioSegment)
    (h : 1 ≤ a.channels) :
    ∃ out, PrepareAudio.prepare_audio lib (some a) = some out
      ∧ out.channels = 1 ∧ out.frameRate = 22050 := by
  refine ⟨_, PrepareAudio.prepare_audio_eq_stages lib a, ?_, ?_⟩ <;>
  · simp only [PrepareAudio.trimStage, PrepareAudio.normalizeStage,
      PrepareAudio.rateStage, PrepareAudio.monoStage, PrepareAudio.sliceMs]
    split <;> split <;> split <;> simp_all <;> omega

/-- Witness for C1: a stereo 44100 Hz segment comes out mono at
22050 Hz. -/
theorem claim_C1_witness :
    ∃ out, PrepareAudio.prepare_audio
        { toMonoData := fun d => d, resampleData := fun _ d => d,
          normalizeData := fun d => d,
          detect_nonsilent := fun _ _ _ => [(0, 2)] }
        (some { channels := 2, frameRate := 44100, data := [5, 7, 9] }) = some out
      ∧ out.channels = 1 ∧ out.frameRate = 22050 :=
  claim_C1 _ _ (by decide)

/-- C2: with at least one sample file matching `sample_*.wav`,
`combine_samples` concatenates the successfully loading samples in
sorted filename order with one fixed 500 ms gap between consecutive
samples and no trailing gap, so with `k ≥ 1` loaded samples the
combined length is the sum of their lengths plus `500 * (k - 1)`; with
no matching file it returns `None` without exporting. -/
theorem claim_C2 (dir : List (String × Option PrepareAudio.AudioSegment)) :
    (dir.filter (fun e => PrepareAudio.matchesSamplePattern e.1) = [] →
      PrepareAudio.combine_samples dir = none)
    ∧ (1 ≤ (PrepareAudio.loadedData (PrepareAudio.sortedSamples dir)).length →
      PrepareAudio.combine_samples dir =
        some (PrepareAudio.joinWith PrepareAudio.sampleGap
          (PrepareAudio.loadedData (PrepareAudio.sortedSamples dir)))
      ∧ (PrepareAudio.joinWith PrepareAudio.sampleGap
          (PrepareAudio.loadedData (PrepareAudio.sortedSamples dir))).length =
        ((PrepareAudio.loadedData (PrepareAudio.sortedSamples dir)).map
            List.length).sum
          + 500 * ((PrepareAudio.loadedData (PrepareAudio.sortedSamples dir)).length - 1)) := by
  constructor
  · intro h
    simp [PrepareAudio.combine_samples, h, PrepareAudio.sortByName]
  · intro hk
    have hne : dir.filter (fun e => PrepareAudio.matchesSamplePattern e.1) ≠ [] := by
      intro hempty
      rw [PrepareAudio.sortedSamples, hempty] at hk
      simp [PrepareAudio.sortByName, PrepareAudio.loadedData] at hk
    exact ⟨PrepareAudio.combine_samples_eq dir hne,
      PrepareAudio.length_joinWith _⟩

/-- Witness for C2: three matching samples of lengths 3, 2 and 1 ms
(one non-matching file ignored) combine to `3 + 2 + 1 + 500 * 2` ms. -/
theorem claim_C2_witness :
    PrepareAudio.combine_samples
        [("sample_2.wav", some { channels := 1, frameRate := 22050, data := [4, 5] }),
         ("notes.txt", some { channels := 1, frameRate := 22050, data := [0] }),
         ("sample_1.wav", some { channels := 1, frameRate := 22050, data := [1, 2, 3] }),
         ("sample_3.wav", some { channels := 1, frameRate := 22050, data := [9] })] =
      some (PrepareAudio.joinWith PrepareAudio.sampleGap [[1, 2, 3], [4, 5], [9]])
    ∧ (PrepareAudio.joinWith PrepareAudio.sampleGap [[1, 2, 3], [4, 5], [9]]).length
        = 1006 := by
  have h := (claim_C2
    [("sample_2.wav", some { channels := 1, frameRate := 22050, data := [4, 5] }),
     ("notes.txt", some { channels := 1, frameRate := 22050, data := [0] }),
     ("sample_1.wav", some { channels := 1, frameRate := 22050, data := [1, 2, 3] }),
     ("sample_3.wav", some { channels := 1, frameRate := 22050, data := [9] })]).2
    (by decide)
  constructor
  · have h1 := h.1
    rw [h1]
    rfl
  · have h2 := h.2
    rw [show PrepareAudio.loadedData (PrepareAudio.sortedSamples
      [("sample_2.wav", some { channels := 1, frameRate := 22050, data := [4, 5] }),
       ("notes.txt", some { channels := 1, frameRate := 22050, data := [0] }),
       ("sample_1.wav", some { channels := 1, frameRate := 22050, data := [1, 2, 3] }),
       ("sample_3.wav", some { channels := 1, frameRate := 22050, data := [9] })]) =
      [[1, 2, 3], [4, 5], [9]] from rfl] at h2
    rw [h2]
    rfl

/-- C5: a sample that fails to load is skipped (warning only) and does
not abort the run: whenever any file matches `sample_*.wav`, the
combined file is still exported and contains exactly the samples that
loaded successfully, in sorted order, each later sample included. -/
theorem claim_C5 (dir : List (String × Option PrepareAudio.AudioSegment))
    (h : dir.filter (fun e => PrepareAudio.matchesSamplePattern e.1) ≠ []) :
    PrepareAudio.combine_samples dir =
      some (PrepareAudio.joinWith PrepareAudio.sampleGap
        (PrepareAudio.loadedData (PrepareAudio.sortedSamples dir))) :=
  PrepareAudio.combine_samples_eq dir h

/-- Witness for C5: the middle sample fails to load; the samples before
and after it are still combined, with a single gap between them. -/
theorem claim_C5_witness :
    PrepareAudio.combine_samples
        [("sample_1.wav", some { channels := 1, frameRate := 22050, data := [1, 2, 3] }),
         ("sample_2.wav", none),
         ("sample_3.wav", some { channels := 1, frameRate := 22050, data := [9] })] =
      some ([1, 2, 3] ++ PrepareAudio.sampleGap ++ [9]) := by
  have h := claim_C5
    [("sample_1.wav", some { channels := 1, frameRate := 22050, data := [1, 2, 3] }),
     ("sample_2.wav", none),
     ("sample_3.wav", some { channels := 1, frameRate := 22050, data := [9] })]
    (by decide)
  rw [h]
  rfl

/-- C3: `validate_path(path, allowed_parent)` returns the fully resolved
path exactly when the resolved `allowed_parent` is a component-wise
ancestor (or equal) of the resolved path, and raises `ValueError` for
every path whose resolution lies outside `allowed_parent`; the check is
on path components (containment), not on string text. -/
theorem claim_C3 (cwd : List String) (path allowed_parent : PyPath) :
    (VoiceCloner.validate_path cwd path allowed_parent =
        Except.ok (resolveComponents cwd path)
      ↔ (resolveComponents cwd allowed_parent).isPrefixOf
          (resolveComponents cwd path) = true)
    ∧ (∀ r, VoiceCloner.validate_path cwd path allowed_parent = Except.ok r →
        r = resolveComponents cwd path)
    ∧ ((resolveComponents cwd allowed_parent).isPrefixOf
          (resolveComponents cwd path) = false →
        VoiceCloner.validate_path cwd path allowed_parent =
          Except.error "Invalid path: must be within allowed parent") := by
  unfold VoiceCloner.validate_path relative_to
  by_cases h : (resolveComponents cwd allowed_parent).isPrefixOf
      (resolveComponents cwd path) = true
  · simp [h]
  · simp only [Bool.not_eq_true] at h
    simp [h]

/-- Witness for C3 at concrete inputs: `voices/../secrets/x.wav` resolves
outside `voices` (so is rejected) even though the textual path starts
with the string `voices`, while `voices/a.wav` is accepted. -/
theorem claim_C3_witness :
    VoiceCloner.validate_path ["home"]
        ⟨false, ["voices", "..", "secrets", "x.wav"]⟩ ⟨false, ["voices"]⟩ =
      Except.error "Invalid path: must be within allowed parent"
    ∧ VoiceCloner.validate_path ["home"]
        ⟨false, ["voices", "a.wav"]⟩ ⟨false, ["voices"]⟩ =
      Except.ok ["home", "voices", "a.wav"] := by
  refine ⟨(claim_C3 ["home"] ⟨false, ["voices", "..", "secrets", "x.wav"]⟩
      ⟨false, ["voices"]⟩).2.2 (by decide), ?_⟩
  have h := (claim_C3 ["home"] ⟨false, ["voices", "a.wav"]⟩
      ⟨false, ["voices"]⟩).1.mpr (by decide)
  simpa using h

/-- C4: for every successfully loaded input, `prepare_audio` applies its
transformations in exactly the order load, mono conversion, resampling
to 22050 Hz, loudness normalisation, silence trimming, then export —
each stage operating on the previous stage's result (and a failed load
produces no output at all). -/
theorem claim_C4 (lib : PrepareAudio.PydubLib) (a : PrepareAudio.AudioSegment) :
    PrepareAudio.prepare_audio lib (some a) =
      some (PrepareAudio.trimStage lib
        (PrepareAudio.normalizeStage lib
          (PrepareAudio.rateStage lib
            (PrepareAudio.monoStage lib a))))
    ∧ PrepareAudio.prepare_audio lib none = none :=
  ⟨PrepareAudio.prepare_audio_eq_stages lib a, rfl⟩

/-- C6: silence trimming in `prepare_audio` — with the audio at the
trimming point being the normalised, resampled, mono-converted input —
replaces the audio with the contiguous slice from the start of the
first range detected by `detect_nonsilent` (minimum silence 500 ms,
threshold −40 dB) to the end of the last detected range, and leaves the
audio unchanged (warning only) when no nonsilent range is detected. -/
theorem claim_C6 (lib : PrepareAudio.PydubLib) (a : PrepareAudio.AudioSegment) :
    (lib.detect_nonsilent 500 (-40)
        (PrepareAudio.normalizeStage lib
          (PrepareAudio.rateStage lib (PrepareAudio.monoStage lib a))) = [] →
      PrepareAudio.prepare_audio lib (some a) =
        some (PrepareAudio.normalizeStage lib
          (PrepareAudio.rateStage lib (PrepareAudio.monoStage lib a))))
    ∧ (∀ r rs, lib.detect_nonsilent 500 (-40)
        (PrepareAudio.normalizeStage lib
          (PrepareAudio.rateStage lib (PrepareAudio.monoStage lib a))) = r :: rs →
      PrepareAudio.prepare_audio lib (some a) =
        some (PrepareAudio.sliceMs
          (PrepareAudio.normalizeStage lib
            (PrepareAudio.rateStage lib (PrepareAudio.monoStage lib a)))
          r.1 (((r :: rs).getLastD (0, 0)).2))) := by
  constructor
  · intro h
    rw [PrepareAudio.prepare_audio_eq_stages]
    simp [PrepareAudio.trimStage, h]
  · intro r rs h
    rw [PrepareAudio.prepare_audio_eq_stages]
    simp [PrepareAudio.trimStage, h]

/-- Witness for C6: with a detector reporting ranges `[(1,3), (4,6)]` on
a 7 ms segment, the output is the slice `[1, 6)`; with a detector
reporting nothing, the audio is unchanged. -/
theorem claim_C6_witness :
    PrepareAudio.prepare_audio
        { toMonoData := fun d => d, resampleData := fun _ d => d,
          normalizeData := fun d => d,
          detect_nonsilent := fun _ _ _ => [(1, 3), (4, 6)] }
        (some { channels := 1, frameRate := 22050,
                data := [10, 11, 12, 13, 14, 15, 16] }) =
      some { channels := 1, frameRate := 22050, data := [11, 12, 13, 14, 15] }
    ∧ PrepareAudio.prepare_audio
        { toMonoData := fun d => d, resampleData := fun _ d => d,
          normalizeData := fun d => d,
          detect_nonsilent := fun _ _ _ => [] }
        (some { channels := 1, frameRate := 22050, data := [10, 11] }) =
      some { channels := 1, frameRate := 22050, data := [10, 11] } := by
  constructor
  · have h := (claim_C6
      { toMonoData := fun d => d, resampleData := fun _ d => d,
        normalizeData := fun d => d,
        detect_nonsilent := fun _ _ _ => [(1, 3), (4, 6)] }
      { channels := 1, frameRate := 22050,
        data := [10, 11, 12, 13, 14, 15, 16] }).2 (1, 3) [(4, 6)] rfl
    simpa [PrepareAudio.sliceMs, PrepareAudio.normalizeStage,
      PrepareAudio.rateStage, PrepareAudio.monoStage] using h
  · have h := (claim_C6
      { toMonoData := fun d => d, resampleData := fun _ d => d,
        normalizeData := fun d => d,
        detect_nonsilent := fun _ _ _ => [] }
      { channels := 1, frameRate := 22050, data := [10, 11] }).1 rfl
    simpa [PrepareAudio.normalizeStage,
      PrepareAudio.rateStage, PrepareAudio.monoStage] using h

/-- C7: the combined voice file is the default reference audio.
`quick_clone.py` only ever passes `voices/my_voice/combined.wav` (under
its script directory) to `clone_voice`, and exits with an error
whenever that file does not exist; and `find_voice_file`, given a voice
profile name that is not itself an existing `.wav` path, returns
`voices/<name>/combined.wav` whenever it exists, before considering any
other `.wav` file of the directory. -/
theorem claim_C7 (fs : FS) (cwd : List String) (name : String)
    (h1 : (fs.pathExists cwd ⟨false, [name]⟩
        && Cli.pySuffixIsWav ⟨false, [name]⟩) = false)
    (h2 : fs.pathExists cwd ⟨false, ["voices", name, "combined.wav"]⟩ = true) :
    Cli.find_voice_file fs cwd ⟨false, [name]⟩ =
      some ⟨false, ["voices", name, "combined.wav"]⟩
    ∧ (∀ scriptDir argvTail initOk ttsOk ref text,
        QuickClone.quick_clone_main fs scriptDir argvTail initOk ttsOk =
          Except.ok (ref, text) →
        ref = scriptDir ++ ["voices", "my_voice", "combined.wav"])
    ∧ (∀ scriptDir,
        fs.pathExistsAbs (QuickClone.DEFAULT_VOICE scriptDir) = false →
        ∀ argvTail initOk ttsOk r,
          QuickClone.quick_clone_main fs scriptDir argvTail initOk ttsOk ≠
            Except.ok r) := by
  refine ⟨?_, ?_, ?_⟩
  · unfold Cli.find_voice_file
    rw [h1]
    have hcombined : (pyJoin (pyJoin ⟨false, ["voices"]⟩ ⟨false, [name]⟩)
        ⟨false, ["combined.wav"]⟩ : PyPath) =
        ⟨false, ["voices", name, "combined.wav"]⟩ := rfl
    simp only [hcombined, h2, if_true]
    rfl
  · intro scriptDir argvTail initOk ttsOk ref text h
    unfold QuickClone.quick_clone_main QuickClone.DEFAULT_VOICE at h
    repeat' split at h
    all_goals simp_all
  · intro scriptDir hmiss argvTail initOk ttsOk r h
    unfold QuickClone.quick_clone_main QuickClone.DEFAULT_VOICE at h
    rw [QuickClone.DEFAULT_VOICE] at hmiss
    repeat' split at h
    all_goals simp_all

/-- Witness for C7: with `voices/alice/combined.wav` on disk and
`alice` not an existing `.wav` path, `find_voice_file` returns the
combined file; and with a script directory whose default voice is
missing, `quick_clone` never succeeds. -/
theorem claim_C7_witness :
    Cli.find_voice_file
        { files := [["root", "voices", "alice", "combined.wav"],
                    ["root", "voices", "alice", "sample_001.wav"]],
          dirs := [["root"], ["root", "voices"], ["root", "voices", "alice"]] }
        ["root"] ⟨false, ["alice"]⟩ =
      some ⟨false, ["voices", "alice", "combined.wav"]⟩
    ∧ QuickClone.quick_clone_main
        { files := [["root", "voices", "alice", "combined.wav"],
                    ["root", "voices", "alice", "sample_001.wav"]],
          dirs := [["root"], ["root", "voices"], ["root", "voices", "alice"]] }
        ["elsewhere"] ["hi"] true true ≠ Except.ok (["x"], "y") := by
  have h := claim_C7
    { files := [["root", "voices", "alice", "combined.wav"],
                ["root", "voices", "alice", "sample_001.wav"]],
      dirs := [["root"], ["root", "voices"], ["root", "voices", "alice"]] }
    ["root"] "alice" (by decide) (by decide)
  exact ⟨h.1, h.2.2 ["elsewhere"] (by decide) ["hi"] true true (["x"], "y")⟩

/-- C8: `clone_voice` raises `FileNotFoundError` when the reference
audio does not exist, and `ValueError` when (the reference exists and)
the text is empty or whitespace-only — in both cases with an empty
effect trace, i.e. before the output directory is created or the TTS
model invoked; on success it returns the given `output_path` unchanged,
after creating the directory and invoking the model in that order. -/
theorem claim_C8 (refExists : Bool) (text output_path : String) (ttsOk : Bool) :
    (refExists = false →
      VoiceCloner.clone_voice refExists text output_path ttsOk =
        ([], Except.error VoiceCloner.CloneErr.fileNotFoundError))
    ∧ (refExists = true → (pyStrip text).isEmpty = true →
      VoiceCloner.clone_voice refExists text output_path ttsOk =
        ([], Except.error VoiceCloner.CloneErr.valueError))
    ∧ (∀ effs r,
        VoiceCloner.clone_voice refExists text output_path ttsOk =
          (effs, Except.ok r) →
        r = output_path ∧
        effs = [VoiceCloner.CloneEffect.mkdirOutputParent,
                VoiceCloner.CloneEffect.ttsToFile]) := by
  refine ⟨?_, ?_, ?_⟩
  · intro h
    simp [VoiceCloner.clone_voice, h]
  · intro h hb
    simp [VoiceCloner.clone_voice, h, hb]
  · intro effs r h
    unfold VoiceCloner.clone_voice at h
    repeat' split at h
    all_goals simp_all

/-- Witness for C8: a missing reference, a whitespace-only text, and a
successful generation, each at concrete inputs. -/
theorem claim_C8_witness :
    VoiceCloner.clone_voice false "hello" "out.wav" true =
      ([], Except.error VoiceCloner.CloneErr.fileNotFoundError)
    ∧ VoiceCloner.clone_voice true "  " "out.wav" true =
      ([], Except.error VoiceCloner.CloneErr.valueError)
    ∧ ("out.wav" = "out.wav"
        ∧ [VoiceCloner.CloneEffect.mkdirOutputParent,
           VoiceCloner.CloneEffect.ttsToFile] =
          [VoiceCloner.CloneEffect.mkdirOutputParent,
           VoiceCloner.CloneEffect.ttsToFile]) :=
  ⟨(claim_C8 false "hello" "out.wav" true).1 rfl,
   (claim_C8 true "  " "out.wav" true).2.1 rfl (by decide),
   (claim_C8 true "hello" "out.wav" true).2.2
     [VoiceCloner.CloneEffect.mkdirOutputParent,
      VoiceCloner.CloneEffect.ttsToFile]
     "out.wav" rfl⟩

/-- C9: every front end enforces the same 10000-character text limit:
the CLI's single-generation mode exits with `textTooLong` and
`quick_clone.py` exits with an error (never succeeding) for every text
longer than 10000 characters, and the web UI's `generate_speech`
returns no audio and a non-success status for such texts; texts of at
most 10000 characters never trip this length check in any of the
three. -/
theorem claim_C9 :
    (∀ cwd t outputArg ttsOk, 10000 < (t : String).length →
      Cli.single_generation cwd (some t) outputArg ttsOk =
        Except.error Cli.ExitKind.textTooLong)
    ∧ (∀ fs scriptDir argvTail initOk ttsOk,
        10000 < (QuickClone.quickText argvTail).length →
        ∀ r, QuickClone.quick_clone_main fs scriptDir argvTail initOk ttsOk ≠
          Except.ok r)
    ∧ (∀ fs cwd t voice_file ttsOk, 10000 < (t : String).length →
        (WebUi.generate_speech fs cwd t voice_file ttsOk).1 = none
        ∧ (WebUi.generate_speech fs cwd t voice_file ttsOk).2 ≠
            WebUi.Status.generated)
    ∧ (∀ cwd t outputArg ttsOk, (t : String).length ≤ 10000 →
        Cli.single_generation cwd (some t) outputArg ttsOk ≠
          Except.error Cli.ExitKind.textTooLong)
    ∧ (∀ fs scriptDir argvTail initOk ttsOk,
        (QuickClone.quickText argvTail).length ≤ 10000 →
        QuickClone.quick_clone_main fs scriptDir argvTail initOk ttsOk ≠
          Except.error QuickClone.QuickExit.tooLong)
    ∧ (∀ fs cwd t voice_file ttsOk, (t : String).length ≤ 10000 →
        (WebUi.generate_speech fs cwd t voice_file ttsOk).2 ≠
          WebUi.Status.errTooLong) := by
  refine ⟨?_, ?_, ?_, ?_, ?_, ?_⟩
  · intro cwd t outputArg ttsOk h
    simp [Cli.single_generation, Cli.MAX_TEXT_LENGTH, h]
  · intro fs scriptDir argvTail initOk ttsOk h r hok
    unfold QuickClone.quick_clone_main at hok
    repeat' split at hok
    all_goals simp_all [QuickClone.MAX_TEXT_LENGTH]
  · intro fs cwd t voice_file ttsOk h
    unfold WebUi.generate_speech
    by_cases hb : (t.isEmpty || (pyStrip t).isEmpty) = true
    · rw [if_pos hb]
      exact ⟨rfl, by simp⟩
    · rw [if_neg hb, if_pos (by simpa [WebUi.MAX_TEXT_LENGTH] using h)]
      exact ⟨rfl, by simp⟩
  · intro cwd t outputArg ttsOk h hbad
    unfold Cli.single_generation at hbad
    repeat' split at hbad
    all_goals simp_all [Cli.MAX_TEXT_LENGTH]
    all_goals omega
  · intro fs scriptDir argvTail initOk ttsOk h hbad
    unfold QuickClone.quick_clone_main at hbad
    repeat' split at hbad
    all_goals simp_all [QuickClone.MAX_TEXT_LENGTH]
    all_goals omega
  · intro fs cwd t voice_file ttsOk h hbad
    unfold WebUi.generate_speech at hbad
    repeat' split at hbad
    all_goals simp_all [WebUi.MAX_TEXT_LENGTH]
    all_goals omega

/-- Witness for C9: a 10001-character text is rejected by all three
front ends, and a short text never trips the length check in any of
them. -/
theorem claim_C9_witness :
    Cli.single_generation ["root"]
        (some (String.mk (List.replicate 10001 'a'))) none true =
      Except.error Cli.ExitKind.textTooLong
    ∧ QuickClone.quick_clone_main ⟨[], []⟩ ["root"]
        [String.mk (List.replicate 10001 'a')] true true ≠
      Except.ok (["root"], "x")
    ∧ (WebUi.generate_speech ⟨[], []⟩ ["root"]
        (String.mk (List.replicate 10001 'a')) none true).1 = none
    ∧ (WebUi.generate_speech ⟨[], []⟩ ["root"]
        (String.mk (List.replicate 10001 'a')) none true).2 ≠
      WebUi.Status.generated
    ∧ Cli.single_generation ["root"] (some "hi") none true ≠
      Except.error Cli.ExitKind.textTooLong
    ∧ QuickClone.quick_clone_main ⟨[], []⟩ ["root"] ["hi"] true true ≠
      Except.error QuickClone.QuickExit.tooLong
    ∧ (WebUi.generate_speech ⟨[], []⟩ ["root"] "hi" none true).2 ≠
      WebUi.Status.errTooLong := by
  have hlong : 10000 < (String.mk (List.replicate 10001 'a')).length := by
    show 10000 < (List.replicate 10001 'a').length
    rw [List.length_replicate]
    omega
  have hq : QuickClone.quickText [String.mk (List.replicate 10001 'a')] =
      String.mk (List.replicate 10001 'a') := rfl
  have hshort : ("hi" : String).length ≤ 10000 := by decide
  have hqs : (QuickClone.quickText ["hi"]).length ≤ 10000 := by decide
  exact ⟨claim_C9.1 ["root"] _ none true hlong,
    claim_C9.2.1 ⟨[], []⟩ ["root"] _ true true (by rw [hq]; exact hlong) _,
    (claim_C9.2.2.1 ⟨[], []⟩ ["root"] _ none true hlong).1,
    (claim_C9.2.2.1 ⟨[], []⟩ ["root"] _ none true hlong).2,
    claim_C9.2.2.2.1 ["root"] "hi" none true hshort,
    claim_C9.2.2.2.2.1 ⟨[], []⟩ ["root"] ["hi"] true true hqs,
    claim_C9.2.2.2.2.2 ⟨[], []⟩ ["root"] "hi" none true hshort⟩

/-- C10: in the interactive CLI session the current language is always
a member of the fixed `get_supported_languages` list: it starts as
`"en"`; any input whose parsed language code is unsupported (including
every non-`lang` command) leaves it unchanged (an error message only);
and `lang <code>` with a supported code switches to exactly that
code. -/
theorem claim_C10 (genOk : Cli.IState → String → Bool) :
    Cli.interactive_init.currentLanguage = "en"
    ∧ (∀ inputs,
        (Cli.interactive_run genOk Cli.interactive_init inputs).currentLanguage
          ∈ VoiceCloner.get_supported_languages)
    ∧ (∀ st raw,
        VoiceCloner.get_supported_languages.contains
          (Cli.parsedLang (pyStrip raw)) = false →
        ((Cli.interactive_step genOk st raw).1).currentLanguage =
          st.currentLanguage)
    ∧ (∀ st c, c ∈ VoiceCloner.get_supported_languages →
        ((Cli.interactive_step genOk st ("lang " ++ c)).1).currentLanguage =
          c) := by
  have hstep : ∀ st raw,
      st.currentLanguage ∈ VoiceCloner.get_supported_languages →
      ((Cli.interactive_step genOk st raw).1).currentLanguage ∈
        VoiceCloner.get_supported_languages := by
    intro st raw h
    unfold Cli.interactive_step
    repeat' split
    all_goals simp_all
  refine ⟨rfl, ?_, ?_, ?_⟩
  · have hrun : ∀ inputs st,
        st.currentLanguage ∈ VoiceCloner.get_supported_languages →
        (Cli.interactive_run genOk st inputs).currentLanguage ∈
          VoiceCloner.get_supported_languages := by
      intro inputs
      induction inputs with
      | nil =>
        intro st h
        simpa [Cli.interactive_run] using h
      | cons raw rest ih =>
        intro st h
        have h2 := hstep st raw h
        unfold Cli.interactive_run
        rcases hs : Cli.interactive_step genOk st raw with ⟨st2, b⟩
        rw [hs] at h2
        cases b
        · exact h2
        · exact ih st2 h2
    intro inputs
    exact hrun inputs _ (by decide)
  · intro st raw hns
    unfold Cli.interactive_step
    repeat' split
    all_goals simp_all
  · intro st c hc
    fin_cases hc <;> rfl

/-- Witness for C10: starting from the initial state, `lang es` then a
text line keeps the language supported; `lang xx` leaves it unchanged;
`lang fr` switches it to `fr`. -/
theorem claim_C10_witness :
    (Cli.interactive_run (fun _ _ => true) Cli.interactive_init
        ["lang es", "hello there"]).currentLanguage ∈
      VoiceCloner.get_supported_languages
    ∧ ((Cli.interactive_step (fun _ _ => true) Cli.interactive_init
        "lang xx").1).currentLanguage = Cli.interactive_init.currentLanguage
    ∧ ((Cli.interactive_step (fun _ _ => true) Cli.interactive_init
        ("lang " ++ "fr")).1).currentLanguage = "fr" :=
  ⟨(claim_C10 (fun _ _ => true)).2.1 ["lang es", "hello there"],
   (claim_C10 (fun _ _ => true)).2.2.1 Cli.interactive_init "lang xx"
     (by decide),
   (claim_C10 (fun _ _ => true)).2.2.2 Cli.interactive_init "fr" (by decide)⟩
